import Mathlib

/-!
Shallow embedding of the voice-transformation worker (`src/worker.js`) of the
`longadistance` repository, together with proofs checking the natural-language
specification's claims against it.

The worker routes live audio between participants: per-speaker frames are
accumulated into chunks (`_startAudioStream`), each chunk is gated on an RMS
silence threshold and a global quota-cooldown flag, sent to the external
transformation service, and the transformed PCM is captured frame-by-frame into
the speaker's published output route (`sendS2SChunk`); capture failures
classified as channel-invalid trigger a debounced route recreation
(`recreateRouteForParticipant`).

External effects (the HTTP fetch outcome, per-frame capture outcomes, publish /
unpublish success) are modelled as explicit oracle inputs, so every function
below is a total function of its inputs; timestamps (`Date.now()`) are explicit
integer parameters.
-/

namespace VoiceRelay

/-- JS `String.prototype.includes(pat)`: substring test, over character lists. -/
def strIncl (s pat : String) : Bool := decide (pat.data <:+: s.data)

/-- JS `String.prototype.startsWith(pat)`, over character lists. -/
def strStarts (s pat : String) : Bool := decide (pat.data <+: s.data)

/-- JS `Map.get`: first (unique) entry for the key, if any. -/
def mapGet {α : Type} (m : List (String × α)) (k : String) : Option α :=
  (m.find? (fun p => p.1 == k)).map (fun p => p.2)

/-- JS `Map.set`: replace any entry for the key by the new binding. -/
def mapSet {α : Type} (m : List (String × α)) (k : String) (v : α) : List (String × α) :=
  (k, v) :: m.filter (fun p => !(p.1 == k))

/-- JS `Map.delete`: drop the entry for the key. -/
def mapDelete {α : Type} (m : List (String × α)) (k : String) : List (String × α) :=
  m.filter (fun p => !(p.1 == k))

/-! ### WAV encoding (`pcmToWavBuffer`, worker.js lines 46-68) -/

/-- JS `Buffer.writeUInt16LE`: the two little-endian bytes of a 16-bit value. -/
def u16le (n : Nat) : List Nat := [n % 256, n / 2 ^ 8 % 256]

/-- JS `Buffer.writeUInt32LE`: the four little-endian bytes of a 32-bit value. -/
def u32le (n : Nat) : List Nat :=
  [n % 256, n / 2 ^ 8 % 256, n / 2 ^ 16 % 256, n / 2 ^ 24 % 256]

/-- Two's-complement little-endian byte pair of one Int16 sample (the
`Buffer.from(int16.buffer, ...)` memory copy on a little-endian platform). -/
def int16le (x : Int) : List Nat := u16le (x % 65536).toNat

/-- The constant `VOICE_SAMPLE_RATE` (worker.js line 42): LiveKit PCM is 48 kHz mono Int16. -/
def VOICE_SAMPLE_RATE : Nat := 48000

/-- The function `pcmToWavBuffer(int16, sampleRate)` (worker.js lines 46-68): minimal WAV
container, translated field by field from the source. -/
def pcmToWavBuffer (int16 : List Int) (sampleRate : Nat) : List Nat :=
  let numChannels := 1
  let bitsPerSample := 16
  let byteRate := sampleRate * numChannels * (bitsPerSample / 8)
  let blockAlign := numChannels * (bitsPerSample / 8)
  let dataSize := int16.length * 2
  [82, 73, 70, 70] ++ u32le (36 + dataSize) ++
  [87, 65, 86, 69] ++
  [102, 109, 116, 32] ++ u32le 16 ++
  u16le 1 ++ u16le numChannels ++ u32le sampleRate ++ u32le byteRate ++
  u16le blockAlign ++ u16le bitsPerSample ++
  [100, 97, 116, 97] ++ u32le dataSize ++
  (int16.map int16le).flatten

/-- The byte layout claimed by the spec, written from the spec's words: 44-byte
RIFF/WAVE/fmt /data header with PCM format code 1, one channel, the declared
sample rate, 16 bits per sample, byte-rate `rate * 2`, block-align 2, data size
`2 * n`, followed by the samples as little-endian bytes. -/
def wavRiffLayout (int16 : List Int) (sampleRate : Nat) : List Nat :=
  [82, 73, 70, 70] ++ u32le (36 + 2 * int16.length) ++
  [87, 65, 86, 69] ++
  [102, 109, 116, 32] ++ u32le 16 ++
  u16le 1 ++ u16le 1 ++ u32le sampleRate ++ u32le (sampleRate * 2) ++
  u16le 2 ++ u16le 16 ++
  [100, 97, 116, 97] ++ u32le (2 * int16.length) ++
  (int16.map int16le).flatten

/-! ### Silence gate (`rmsDbFS`, worker.js lines 90-100) -/

/-- The constant `SILENCE_DB` (worker.js line 83). -/
def SILENCE_DB : ℝ := -55

/-- The function `rmsDbFS(int16)` (worker.js lines 90-100): RMS of the samples normalised to
[-1, 1], in dB relative to full scale, floored at -120 dB; JS float arithmetic
is idealised to real arithmetic. -/
noncomputable def rmsDbFS (int16 : List Int) : ℝ :=
  if int16.length = 0 then -120
  else
    let sum : ℝ := (int16.map (fun s => ((s : ℝ) / 32768) ^ 2)).sum
    let rms := Real.sqrt (sum / int16.length)
    let db := 20 * Real.logb 10 (rms + 1e-12)
    max (-120) db

/-! ### Data model -/

/-- A participant's voice assignment (`participantVoices` entries). -/
structure VoiceInfo where
  voiceId : String
  voiceName : String
deriving Repr, DecidableEq

/-- A per-participant output route (`routes` entries).  `sourceOk` models the
nullability of `route.source`; `tag` identifies the published track object. -/
structure Route where
  key : String
  voiceId : String
  sourceOk : Bool
  tag : Nat
deriving Repr, DecidableEq

/-- The worker's mutable state relevant to the claims.  `loops` records the
identities whose per-speaker relay loop is currently running (one list entry
per running loop); `activeS2S` is the worker's dedup set; `recentlyRecreated`
entries pair an identity with the expiry time of its debounce marker (the
`setTimeout(..., 5000)` deletion). -/
structure WorkerState where
  roomConnected : Bool
  participantVoices : List (String × VoiceInfo)
  routes : List (String × Route)
  activeS2S : List String
  loops : List String
  quotaExhausted : Option Int
  lastSuccessfulCall : Int
  recentlyRecreated : List (String × Int)
deriving Repr, DecidableEq

/-- Publish/unpublish side effects on the room, recorded for the route claims.
`unpublish` records the attempted `unpublishTrack` and whether it succeeded
(the code ignores its errors); `publish` records a successful `publishTrack`. -/
inductive RouteEffect
  | unpublish (tag : Nat) (ok : Bool)
  | publish (tag : Nat)
deriving Repr, DecidableEq

/-- Oracle outcomes for the external calls made while (re)creating a route. -/
structure RecreateEnv where
  unpublishOk : Bool
  publishOk : Bool
  freshTag : Nat
deriving Repr, DecidableEq

/-! ### Route registry operations (worker.js lines 494-528 and 558-604) -/

/-- Core of `recreateRouteForParticipant` (worker.js lines 558-604), acting on
the voices and routes maps: look up the voice (return unchanged if absent);
unpublish the old track ignoring errors and delete the old route; publish a
fresh track and register the new route.  A `publishTrack` failure is caught by
the function's outer catch, leaving the map without an entry. -/
def recreateRouteCore (voices : List (String × VoiceInfo)) (routes : List (String × Route))
    (id : String) (env : RecreateEnv) : List (String × Route) × List RouteEffect :=
  match mapGet voices id with
  | none => (routes, [])
  | some vi =>
    let cleaned : List (String × Route) × List RouteEffect :=
      match mapGet routes id with
      | none => (routes, [])
      | some oldRoute =>
        (mapDelete routes id, [RouteEffect.unpublish oldRoute.tag env.unpublishOk])
    let newRoute : Route :=
      { key := "from-" ++ id, voiceId := vi.voiceId, sourceOk := true, tag := env.freshTag }
    if env.publishOk then
      (mapSet cleaned.1 id newRoute, cleaned.2 ++ [RouteEffect.publish env.freshTag])
    else (cleaned.1, cleaned.2)

/-- The function `recreateRouteForParticipant` lifted to the worker state. -/
def recreateRouteForParticipant (st : WorkerState) (id : String) (env : RecreateEnv) :
    WorkerState × List RouteEffect :=
  let r := recreateRouteCore st.participantVoices st.routes id env
  ({ st with routes := r.1 }, r.2)

/-- The function `setupRouteForParticipant` (worker.js lines 494-528): requires a voice
assignment; publishes a fresh track and registers the route; a publish failure
is caught, registering nothing. -/
def setupRouteForParticipant (st : WorkerState) (id : String) (publishOk : Bool)
    (freshTag : Nat) : WorkerState × List RouteEffect :=
  match mapGet st.participantVoices id with
  | none => (st, [])
  | some vi =>
    let newRoute : Route :=
      { key := "from-" ++ id, voiceId := vi.voiceId, sourceOk := true, tag := freshTag }
    if publishOk then
      ({ st with routes := mapSet st.routes id newRoute }, [RouteEffect.publish freshTag])
    else (st, [])

/-! ### Chunk transformation (`sendS2SChunk`, worker.js lines 753-924) -/

/-- Outcome of one `route.source.captureFrame` call. -/
inductive CaptureOutcome
  | ok
  | err (msg : String)
deriving Repr, DecidableEq

/-- Outcome of the `fetch` to the transformation service: a rejected promise
(network/timeout error, reaching the outer catch) or a response with a status,
the error body text (read on non-2xx) and the body byte length (read on 2xx). -/
inductive FetchResult
  | reject (timeout : Bool)
  | resp (status : Nat) (bodyText : String) (bodyBytes : Nat)
deriving Repr, DecidableEq

/-- Oracle inputs for one `sendS2SChunk` call: the current time, the fetch
outcome, the successive capture outcomes (exhausted list means success), and
the outcomes used by a route recreation triggered from inside the call. -/
structure ChunkEnv where
  now : Int
  fetch : FetchResult
  captures : List CaptureOutcome
  renv : RecreateEnv
deriving Repr, DecidableEq

/-- Which return path `sendS2SChunk` took.  `uncaught` would mean an exception
escaped to the caller; no path constructs it. -/
inductive ChunkOutcome
  | notConnected
  | noRoute
  | quotaSkip
  | silence
  | quotaFail
  | serviceError (status : Nat) (text : String)
  | emptyResponse
  | completed
  | caughtNetwork (timeout : Bool)
  | uncaught (msg : String)
deriving Repr, DecidableEq

/-- Whether the debounce set contains a live (unexpired) marker for `id` at
time `t` (`recentlyRecreated.has(id)`, with the scheduled deletion modelled as
an expiry timestamp). -/
def recentlyActive (l : List (String × Int)) (id : String) (t : Int) : Bool :=
  l.any (fun p => p.1 == id && decide (t < p.2))

/-- State threaded through the frame-publishing loop of `sendS2SChunk`
(worker.js lines 848-902). -/
structure LoopSt where
  routes : List (String × Route)
  recentlyRecreated : List (String × Int)
  activeS2S : List String
  frames : Nat
  recs : Nat
  effects : List RouteEffect
deriving Repr, DecidableEq

/-- The frame-publishing loop (worker.js lines 848-902): up to `m` 20 ms frames
are captured in order.  Each iteration re-checks that the route still exists
and its source is valid (lines 852 and 866; the room-connected check of line
861 is a constant within one call and is checked by the caller).  A capture
error whose message contains "InvalidState" or "failed to capture frame" marks
the identity in the debounce set (expiring 5 s later) and recreates the route,
unless a live marker exists (lines 876-885); the rethrown error is caught by
the frame-level handler, which deletes the identity from `activeS2S` when the
message contains "InvalidState" and breaks out of the loop (lines 892-901). -/
def publishLoop (voices : List (String × VoiceInfo)) (speaker : String) (now : Int)
    (renv : RecreateEnv) : Nat → List CaptureOutcome → LoopSt → LoopSt
  | 0, _, ls => ls
  | m + 1, caps, ls =>
    match mapGet ls.routes speaker with
    | none => ls
    | some r =>
      if !r.sourceOk then ls
      else
        match caps with
        | [] => publishLoop voices speaker now renv m [] { ls with frames := ls.frames + 1 }
        | CaptureOutcome.ok :: rest =>
          publishLoop voices speaker now renv m rest { ls with frames := ls.frames + 1 }
        | CaptureOutcome.err msg :: _ =>
          let ls1 :=
            if strIncl msg "InvalidState" || strIncl msg "failed to capture frame" then
              if recentlyActive ls.recentlyRecreated speaker now then ls
              else
                let rec1 := recreateRouteCore voices ls.routes speaker renv
                { ls with
                  recentlyRecreated := (speaker, now + 5000) :: ls.recentlyRecreated,
                  routes := rec1.1,
                  effects := ls.effects ++ rec1.2,
                  recs := ls.recs + 1 }
            else ls
          if strIncl msg "InvalidState" then
            { ls1 with activeS2S := ls1.activeS2S.erase speaker }
          else ls1

/-- Result of one `sendS2SChunk` call: the updated worker state, whether the
external HTTP request was issued, the return path taken, the number of frames
captured, the number of `recreateRouteForParticipant` calls made, and the
publish/unpublish effects. -/
structure ChunkResult where
  st : WorkerState
  networkCall : Bool
  outcome : ChunkOutcome
  frames : Nat
  recs : Nat
  effects : List RouteEffect
deriving Repr, DecidableEq

/-- A return before the fetch: no network call, state unchanged. -/
def skipResult (st : WorkerState) (o : ChunkOutcome) : ChunkResult :=
  { st := st, networkCall := false, outcome := o, frames := 0, recs := 0, effects := [] }

/-- The fetch and everything after it (worker.js lines 800-915), reached once
all guards of `sendS2SChunk` passed: non-2xx handling at lines 810-828, empty
body at lines 830-834, then the frame-publishing loop and the success marking
of lines 904-909 (which runs even when the loop broke early); a rejected fetch
reaches the function-level catch of lines 916-923. -/
def handleFetch (st : WorkerState) (speaker : String) (env : ChunkEnv) : ChunkResult :=
  match env.fetch with
  | FetchResult.reject timeout =>
    { st := st, networkCall := true, outcome := ChunkOutcome.caughtNetwork timeout,
      frames := 0, recs := 0, effects := [] }
  | FetchResult.resp status text bodyBytes =>
    if !(200 ≤ status && status ≤ 299) then
      if (status == 401 || status == 429) &&
          (strIncl text "quota_exceeded" || strIncl text "quota") then
        { st := { st with quotaExhausted := some env.now }, networkCall := true,
          outcome := ChunkOutcome.quotaFail, frames := 0, recs := 0, effects := [] }
      else if status == 429 then
        { st := { st with quotaExhausted := some env.now }, networkCall := true,
          outcome := ChunkOutcome.quotaFail, frames := 0, recs := 0, effects := [] }
      else
        { st := st, networkCall := true,
          outcome := ChunkOutcome.serviceError status text,
          frames := 0, recs := 0, effects := [] }
    else if bodyBytes == 0 then
      { st := st, networkCall := true, outcome := ChunkOutcome.emptyResponse,
        frames := 0, recs := 0, effects := [] }
    else
      let numFrames := bodyBytes / 2 / 960
      let ls0 : LoopSt :=
        { routes := st.routes, recentlyRecreated := st.recentlyRecreated,
          activeS2S := st.activeS2S, frames := 0, recs := 0, effects := [] }
      let ls := publishLoop st.participantVoices speaker env.now env.renv
        numFrames env.captures ls0
      let st1 : WorkerState :=
        { st with
          routes := ls.routes,
          recentlyRecreated := ls.recentlyRecreated,
          activeS2S := ls.activeS2S,
          quotaExhausted := none,
          lastSuccessfulCall := env.now }
      { st := st1, networkCall := true, outcome := ChunkOutcome.completed,
        frames := ls.frames, recs := ls.recs, effects := ls.effects }

/-- The function `sendS2SChunk` (worker.js lines 753-924) with the two silence comparisons
(lines 775 and 781, both against -55 dB) supplied as booleans; the wrapper
`sendS2SChunk` below ties them to `rmsDbFS`.  Guard order as in the source:
room connected, route present with valid source and voice, quota cooldown,
silence, then `handleFetch`. -/
def sendS2SChunkCore (st : WorkerState) (speaker : String) (quiet1 quiet2 : Bool)
    (env : ChunkEnv) : ChunkResult :=
  if !st.roomConnected then skipResult st ChunkOutcome.notConnected
  else
    match mapGet st.routes speaker with
    | none => skipResult st ChunkOutcome.noRoute
    | some route =>
      if !route.sourceOk || route.voiceId == "" then skipResult st ChunkOutcome.noRoute
      else
        let quotaBlocked :=
          match st.quotaExhausted with
          | none => false
          | some t => decide (env.now - t < 60000)
        if quotaBlocked then skipResult st ChunkOutcome.quotaSkip
        else if quiet1 then skipResult st ChunkOutcome.silence
        else if quiet2 then skipResult st ChunkOutcome.silence
        else handleFetch st speaker env

open scoped Classical in
/-- The function `sendS2SChunk` with the silence gates computed from `rmsDbFS` as in the
source (line 775 compares against `SILENCE_DB`, line 781 against the literal
-55). -/
noncomputable def sendS2SChunk (st : WorkerState) (speaker : String) (int16 : List Int)
    (env : ChunkEnv) : ChunkResult :=
  sendS2SChunkCore st speaker
    (if rmsDbFS int16 < SILENCE_DB then true else false)
    (if rmsDbFS int16 < -55 then true else false)
    env

/-! ### Per-speaker stream loop (`_startAudioStream`, worker.js lines 661-750) -/

/-- The value `samplesPerChunk` (worker.js line 684) for a chunk duration in ms. -/
def samplesPerChunk (chunkMs : Nat) : Nat := max 1 (VOICE_SAMPLE_RATE * chunkMs / 1000)

/-- The chunk accumulator state of the stream loop (worker.js lines 685-688):
the pending frame buffers, the running sample count, the time of the last
emitted chunk, and the chunks emitted so far (for the proofs). -/
structure AccState where
  buffers : List (List Int)
  total : Nat
  lastChunkTime : Int
  sent : List (List Int)
deriving Repr, DecidableEq

/-- Initial accumulator state (`buffers = [] , totalSamples = 0,
lastChunkTime = 0`). -/
def accInit : AccState := { buffers := [], total := 0, lastChunkTime := 0, sent := [] }

/-- One iteration of the accumulation loop (worker.js lines 690-724) for a
frame arriving at time `fr.1` with samples `fr.2`: empty frames are skipped;
otherwise the frame is appended and, once `totalSamples ≥ samplesPerChunk` and
at least 200 ms have passed since the last chunk, the buffers are merged in
order into one chunk, emitted, and the accumulator resets. -/
def accStep (spc : Nat) (st : AccState) (fr : Int × List Int) : AccState :=
  if fr.2.length = 0 then st
  else
    let buffers := st.buffers ++ [fr.2]
    let total := st.total + fr.2.length
    if total ≥ spc ∧ fr.1 - st.lastChunkTime ≥ 200 then
      { buffers := [], total := 0, lastChunkTime := fr.1, sent := st.sent ++ [buffers.flatten] }
    else
      { st with buffers := buffers, total := total }

/-- The accumulation loop over a whole inbound frame sequence. -/
def accRun (spc : Nat) (frames : List (Int × List Int)) : AccState :=
  frames.foldl (accStep spc) accInit

/-- The end-of-stream flush decision (worker.js lines 727-741): the merged
remainder is sent only when `totalSamples > samplesPerChunk / 2` (exact JS
float halving, written here as `2 * total > spc`); otherwise it is dropped. -/
def streamFlush (spc : Nat) (st : AccState) : Option (List Int) :=
  if 2 * st.total > spc then some st.buffers.flatten else none

/-- The guard of `_startAudioStream` (worker.js lines 661-679) plus the state
change when a stream starts: self-loop and empty-identity guard, dedup against
`activeS2S`, route readiness; on success the speaker joins `activeS2S` and a
new relay loop starts (recorded in `loops`). -/
def startAudioStream (st : WorkerState) (trackOk : Bool) (speaker : String) : WorkerState :=
  if !trackOk || speaker == "" || strStarts speaker "audio-worker-" then st
  else if st.activeS2S.contains speaker then st
  else
    match mapGet st.routes speaker with
    | none => st
    | some route =>
      if !route.sourceOk || route.voiceId == "" then st
      else { st with activeS2S := speaker :: st.activeS2S, loops := speaker :: st.loops }

/-- The `finally` block of the relay loop (worker.js line 747): when a
speaker's loop terminates it is removed from `activeS2S`, and its loop stops
running. -/
def streamEnded (st : WorkerState) (speaker : String) : WorkerState :=
  { st with activeS2S := st.activeS2S.erase speaker, loops := st.loops.erase speaker }

/-- One inbound frame for the full stream-loop model: arrival time, samples,
and the oracle environment used if this frame completes a chunk. -/
structure InFrame where
  t : Int
  samples : List Int
  env : ChunkEnv

/-- State of the full stream-loop model: worker state, accumulator fields,
chunks handed to `sendS2SChunk`, whether the catch branch of worker.js lines
716-723 ever broke out of the loop, and how many inbound frames were
processed. -/
structure StreamState where
  ws : WorkerState
  buffers : List (List Int)
  total : Nat
  lastChunkTime : Int
  sent : List (List Int)
  aborted : Bool
  framesSeen : Nat

/-- Initial stream-loop state for a given worker state. -/
def streamInit (ws : WorkerState) : StreamState :=
  { ws := ws, buffers := [], total := 0, lastChunkTime := 0, sent := [],
    aborted := false, framesSeen := 0 }

/-- One iteration of the stream loop including the chunk dispatch (worker.js
lines 690-724): when a chunk fires, the accumulator resets and the chunk goes
to `sendS2SChunk`; the surrounding `catch (chunkError)` would, for a thrown
error whose message contains "InvalidState", delete the speaker from
`activeS2S` and break out of the loop (modelled by `aborted`). -/
noncomputable def streamStep (spc : Nat) (speaker : String) (ss : StreamState)
    (fr : InFrame) : StreamState :=
  if ss.aborted then ss
  else if fr.samples.length = 0 then { ss with framesSeen := ss.framesSeen + 1 }
  else
    let buffers := ss.buffers ++ [fr.samples]
    let total := ss.total + fr.samples.length
    if total ≥ spc ∧ fr.t - ss.lastChunkTime ≥ 200 then
      let merged := buffers.flatten
      let r := sendS2SChunk ss.ws speaker merged fr.env
      let base : StreamState :=
        { ws := r.st, buffers := [], total := 0, lastChunkTime := fr.t,
          sent := ss.sent ++ [merged], aborted := false,
          framesSeen := ss.framesSeen + 1 }
      match r.outcome with
      | ChunkOutcome.uncaught msg =>
        if strIncl msg "InvalidState" then
          let ws1 : WorkerState := { r.st with activeS2S := r.st.activeS2S.erase speaker }
          { base with ws := ws1, aborted := true }
        else base
      | _ => base
    else
      { ss with buffers := buffers, total := total, framesSeen := ss.framesSeen + 1 }

/-- The stream loop over a whole inbound frame sequence. -/
noncomputable def streamRun (spc : Nat) (speaker : String) (ws : WorkerState)
    (frames : List InFrame) : StreamState :=
  frames.foldl (streamStep spc speaker) (streamInit ws)

/-! ### Concrete inputs used by witnesses and counterexamples -/

/-- A voice assignment used in concrete scenarios. -/
def viA : VoiceInfo := { voiceId := "v1", voiceName := "Custom Voice" }

/-- A registered route used in concrete scenarios. -/
def routeA : Route := { key := "from-A", voiceId := "v1", sourceOk := true, tag := 0 }

/-- A worker state with participant "A" fully set up. -/
def stA : WorkerState :=
  { roomConnected := true, participantVoices := [("A", viA)], routes := [("A", routeA)],
    activeS2S := [], loops := [], quotaExhausted := none, lastSuccessfulCall := 0,
    recentlyRecreated := [] }

/-- A chunk environment whose first capture fails with an InvalidState error:
2xx response with 1920 body bytes (one 960-sample 20 ms frame). -/
def envInvalid : ChunkEnv :=
  { now := 1000, fetch := FetchResult.resp 200 "" 1920,
    captures := [CaptureOutcome.err "InvalidState - failed to capture frame"],
    renv := { unpublishOk := true, publishOk := true, freshTag := 1 } }

/-- The state `stA` with the quota-exhausted timestamp set to 0. -/
def stQuota : WorkerState := { stA with quotaExhausted := some 0 }

/-- A successful-transformation environment at time 1000 (within the cooldown
window of `stQuota`). -/
def envEarly : ChunkEnv :=
  { now := 1000, fetch := FetchResult.resp 200 "" 1920, captures := [],
    renv := { unpublishOk := true, publishOk := true, freshTag := 1 } }

/-- A successful-transformation environment at time 61000 (at the end of the
cooldown window of `stQuota`). -/
def envLate : ChunkEnv :=
  { now := 61000, fetch := FetchResult.resp 200 "" 1920, captures := [],
    renv := { unpublishOk := true, publishOk := true, freshTag := 1 } }

/-- A 429 response whose body carries no quota indicator. -/
def env429 : ChunkEnv :=
  { now := 2000, fetch := FetchResult.resp 429 "Too Many Requests" 0, captures := [],
    renv := { unpublishOk := true, publishOk := true, freshTag := 1 } }

/-- A 401 response whose body carries a quota indicator. -/
def env401 : ChunkEnv :=
  { now := 5000, fetch := FetchResult.resp 401 "quota_exceeded: character limit" 0, captures := [],
    renv := { unpublishOk := true, publishOk := true, freshTag := 1 } }

/-- A 500 response (generic service error). -/
def env500 : ChunkEnv :=
  { now := 6000, fetch := FetchResult.resp 500 "internal error" 0, captures := [],
    renv := { unpublishOk := true, publishOk := true, freshTag := 1 } }

/-- A second chunk environment at time 3000 (inside the 5 s debounce window
opened at time 1000) whose first capture again fails with InvalidState. -/
def envInvalid2 : ChunkEnv :=
  { now := 3000, fetch := FetchResult.resp 200 "" 1920,
    captures := [CaptureOutcome.err "InvalidState"],
    renv := { unpublishOk := true, publishOk := true, freshTag := 2 } }

/-! ### Basic lemmas about the JS Map model -/

/-- Keys of an association list, used for the at-most-one-route invariant. -/
def nodupKeys {α : Type} (m : List (String × α)) : Prop := (m.map Prod.fst).Nodup

theorem mapGet_mapSet_self {α : Type} (m : List (String × α)) (k : String) (v : α) :
    mapGet (mapSet m k v) k = some v := by
  simp [mapGet, mapSet]

theorem mapGet_mapDelete_self {α : Type} (m : List (String × α)) (k : String) :
    mapGet (mapDelete m k) k = none := by
  simp only [mapGet, mapDelete]
  have h : (m.filter (fun p => !(p.1 == k))).find? (fun p => p.1 == k) = none := by
    rw [List.find?_eq_none]
    intro p hp
    have hp2 := (List.mem_filter.mp hp).2
    simpa using hp2
  rw [h]
  rfl

theorem mapSet_filter_key_length {α : Type} (m : List (String × α)) (k : String) (v : α) :
    ((mapSet m k v).filter (fun p => p.1 == k)).length = 1 := by
  simp only [mapSet, List.filter_cons]
  have h1 : ((k, v).1 == k) = true := by simp
  rw [if_pos h1]
  have h2 : (m.filter (fun p => !(p.1 == k))).filter (fun p => p.1 == k) = [] := by
    rw [List.filter_eq_nil_iff]
    intro p hp
    have := (List.mem_filter.mp hp).2
    simpa using this
  rw [h2]
  rfl

theorem nodupKeys_filter {α : Type} (m : List (String × α)) (q : String × α → Bool)
    (h : nodupKeys m) : nodupKeys (m.filter q) :=
  h.sublist (List.Sublist.map Prod.fst (List.filter_sublist m))

theorem nodupKeys_mapDelete {α : Type} (m : List (String × α)) (k : String)
    (h : nodupKeys m) : nodupKeys (mapDelete m k) :=
  nodupKeys_filter m _ h

theorem nodupKeys_mapSet {α : Type} (m : List (String × α)) (k : String) (v : α)
    (h : nodupKeys m) : nodupKeys (mapSet m k v) := by
  refine List.Nodup.cons ?_ (nodupKeys_filter m _ h)
  intro hk
  rcases List.mem_map.mp hk with ⟨p, hp, hpk⟩
  have := (List.mem_filter.mp hp).2
  simp [hpk] at this

/-! ### Lemmas about the debounce set -/

theorem recentlyActive_cons_lt (l : List (String × Int)) (id : String) (e t : Int)
    (h : t < e) : recentlyActive ((id, e) :: l) id t = true := by
  simp [recentlyActive, h]

theorem recentlyActive_mono_false (l : List (String × Int)) (id : String) (now t : Int)
    (h : recentlyActive l id now = false) (ht : now ≤ t) :
    recentlyActive l id t = false := by
  simp only [recentlyActive, List.any_eq_false, Bool.and_eq_true, decide_eq_true_eq] at h ⊢
  intro p hp
  intro hcon
  exact h p hp ⟨hcon.1, by omega⟩

/-! ### Lemmas about the silence gate -/

theorem rmsDbFS_nil : rmsDbFS [] = -120 := by
  simp [rmsDbFS]

theorem rmsDbFS_nil_silent : rmsDbFS [] < -55 := by
  rw [rmsDbFS_nil]; norm_num

theorem rmsDbFS_fullscale_loud : ¬ rmsDbFS [-32768] < -55 := by
  have h1 : rmsDbFS [-32768] = max (-120) (20 * Real.logb 10 (1 + 1e-12)) := by
    simp [rmsDbFS]
  rw [h1]
  have h2 : (0 : ℝ) ≤ Real.logb 10 (1 + 1e-12) :=
    Real.logb_nonneg (by norm_num) (by norm_num)
  intro hcon
  have h3 := max_lt_iff.mp hcon
  nlinarith [h3.2]

/-! ### Relating `sendS2SChunk` to its boolean-gated core -/

theorem sendS2SChunk_eq_core (st : WorkerState) (speaker : String) (int16 : List Int)
    (env : ChunkEnv) :
    ∃ q1 q2, sendS2SChunk st speaker int16 env = sendS2SChunkCore st speaker q1 q2 env :=
  ⟨_, _, rfl⟩

theorem sendS2SChunk_loud (st : WorkerState) (speaker : String) (int16 : List Int)
    (env : ChunkEnv) (h : ¬ rmsDbFS int16 < -55) :
    sendS2SChunk st speaker int16 env = sendS2SChunkCore st speaker false false env := by
  unfold sendS2SChunk
  rw [if_neg (by simpa [SILENCE_DB] using h), if_neg h]

theorem sendS2SChunk_quiet (st : WorkerState) (speaker : String) (int16 : List Int)
    (env : ChunkEnv) (h : rmsDbFS int16 < -55) :
    sendS2SChunk st speaker int16 env = sendS2SChunkCore st speaker true true env := by
  unfold sendS2SChunk
  rw [if_pos (by simpa [SILENCE_DB] using h), if_pos h]

/-! ### Lemmas about the chunk accumulator -/

theorem accStep_preserve (spc : Nat) (st : AccState) (fr : Int × List Int) :
    (accStep spc st fr).sent.flatten ++ (accStep spc st fr).buffers.flatten
      = st.sent.flatten ++ st.buffers.flatten ++ fr.2 := by
  unfold accStep
  by_cases h0 : fr.2.length = 0
  · rw [if_pos h0]
    have : fr.2 = [] := List.length_eq_zero.mp h0
    simp [this]
  · rw [if_neg h0]
    by_cases hg : st.total + fr.2.length ≥ spc ∧ fr.1 - st.lastChunkTime ≥ 200
    · rw [if_pos hg]
      simp
    · rw [if_neg hg]
      simp

theorem accFold_preserve (spc : Nat) (fs : List (Int × List Int)) :
    ∀ st : AccState,
      (fs.foldl (accStep spc) st).sent.flatten ++ (fs.foldl (accStep spc) st).buffers.flatten
        = st.sent.flatten ++ st.buffers.flatten ++ (fs.map Prod.snd).flatten := by
  induction fs with
  | nil => intro st; simp
  | cons f fs ih =>
    intro st
    rw [List.foldl_cons, ih (accStep spc st f)]
    rw [List.map_cons, List.flatten_cons, accStep_preserve]
    simp [List.append_assoc]

theorem accStep_total (spc : Nat) (st : AccState) (fr : Int × List Int)
    (h : st.total = (st.buffers.map List.length).sum) :
    (accStep spc st fr).total = ((accStep spc st fr).buffers.map List.length).sum := by
  unfold accStep
  by_cases h0 : fr.2.length = 0
  · rw [if_pos h0]; exact h
  · rw [if_neg h0]
    by_cases hg : st.total + fr.2.length ≥ spc ∧ fr.1 - st.lastChunkTime ≥ 200
    · rw [if_pos hg]; rfl
    · rw [if_neg hg]
      simp [h]

theorem accFold_total (spc : Nat) (fs : List (Int × List Int)) :
    ∀ st : AccState, st.total = (st.buffers.map List.length).sum →
      (fs.foldl (accStep spc) st).total
        = ((fs.foldl (accStep spc) st).buffers.map List.length).sum := by
  induction fs with
  | nil => intro st h; simpa using h
  | cons f fs ih =>
    intro st h
    exact ih (accStep spc st f) (accStep_total spc st f h)

theorem accStep_guard (spc : Nat) (st : AccState) (fr : Int × List Int)
    (h : (accStep spc st fr).sent ≠ st.sent) :
    st.total + fr.2.length ≥ spc ∧ fr.1 - st.lastChunkTime ≥ 200 ∧
      (accStep spc st fr).sent = st.sent ++ [(st.buffers ++ [fr.2]).flatten] := by
  unfold accStep at h ⊢
  by_cases h0 : fr.2.length = 0
  · rw [if_pos h0] at h; exact absurd rfl h
  · rw [if_neg h0] at h ⊢
    by_cases hg : st.total + fr.2.length ≥ spc ∧ fr.1 - st.lastChunkTime ≥ 200
    · rw [if_pos hg] at h ⊢
      exact ⟨hg.1, hg.2, rfl⟩
    · rw [if_neg hg] at h
      exact absurd rfl h

/-! ### Lemmas about the WAV encoding -/

theorem int16le_length (x : Int) : (int16le x).length = 2 := rfl

theorem flatten_int16le_length (l : List Int) :
    ((l.map int16le).flatten).length = 2 * l.length := by
  induction l with
  | nil => rfl
  | cons x l ih =>
    simp only [List.map_cons, List.flatten_cons, List.length_append, ih, int16le_length,
      List.length_cons]
    ring

theorem mem_u16le_lt (n b : Nat) (h : b ∈ u16le n) : b < 256 := by
  simp only [u16le, List.mem_cons, List.not_mem_nil, or_false] at h
  rcases h with h | h <;> subst h <;> exact Nat.mod_lt _ (by norm_num)

theorem mem_u32le_lt (n b : Nat) (h : b ∈ u32le n) : b < 256 := by
  simp only [u32le, List.mem_cons, List.not_mem_nil, or_false] at h
  rcases h with h | h | h | h <;> subst h <;> exact Nat.mod_lt _ (by norm_num)

theorem mem_int16le_lt (x : Int) (b : Nat) (h : b ∈ int16le x) : b < 256 :=
  mem_u16le_lt _ b h

/-! ### Path lemmas for `sendS2SChunkCore` -/

theorem core_quota_blocked (st : WorkerState) (speaker : String) (q1 q2 : Bool)
    (env : ChunkEnv) (T : Int) (hq : st.quotaExhausted = some T)
    (ht : env.now - T < 60000) :
    (sendS2SChunkCore st speaker q1 q2 env).networkCall = false ∧
      (sendS2SChunkCore st speaker q1 q2 env).st = st := by
  unfold sendS2SChunkCore
  rcases hc : st.roomConnected
  · simp [skipResult]
  · rcases hr : mapGet st.routes speaker with _ | route
    · simp [skipResult]
    · rcases hs : route.sourceOk
      · simp [skipResult, hs]
      · rcases hv : route.voiceId == ""
        · simp only [hs, hv, Bool.not_true, Bool.false_or, Bool.not_false]
          rw [hq]
          simp [skipResult, ht]
        · simp [skipResult, hs, hv]

theorem core_quiet1 (st : WorkerState) (speaker : String) (q2 : Bool) (env : ChunkEnv) :
    (sendS2SChunkCore st speaker true q2 env).networkCall = false ∧
      (sendS2SChunkCore st speaker true q2 env).st = st := by
  unfold sendS2SChunkCore
  rcases hc : st.roomConnected
  · simp [skipResult]
  · rcases hr : mapGet st.routes speaker with _ | route
    · simp [skipResult]
    · rcases hs : route.sourceOk
      · simp [skipResult, hs]
      · rcases hv : route.voiceId == ""
        · rcases hqb : st.quotaExhausted with _ | T
          · simp [skipResult, hs, hv]
          · simp only [hs, hv, Bool.not_true, Bool.false_or, Bool.not_false]
            by_cases hT : env.now - T < 60000
            · simp [skipResult, hT]
            · simp [skipResult, hT]
        · simp [skipResult, hs, hv]

theorem core_guards_pass (st : WorkerState) (speaker : String) (env : ChunkEnv)
    (route : Route) (hc : st.roomConnected = true)
    (hr : mapGet st.routes speaker = some route) (hs : route.sourceOk = true)
    (hv : (route.voiceId == "") = false)
    (hqo : ∀ T, st.quotaExhausted = some T → env.now - T ≥ 60000) :
    sendS2SChunkCore st speaker false false env = handleFetch st speaker env := by
  unfold sendS2SChunkCore
  rw [hc, hr]
  rcases hqb : st.quotaExhausted with _ | T
  · simp [hs, hv]
  · have hT := hqo T hqb
    simp [hs, hv, show ¬ (env.now - T < 60000) by omega]

theorem handleFetch_networkCall (st : WorkerState) (speaker : String) (env : ChunkEnv) :
    (handleFetch st speaker env).networkCall = true := by
  unfold handleFetch
  rcases env.fetch with t | ⟨status, text, bytes⟩
  · rfl
  · dsimp only
    split
    · split
      · rfl
      · split <;> rfl
    · split <;> rfl

theorem handleFetch_ne_uncaught (st : WorkerState) (speaker : String) (env : ChunkEnv)
    (msg : String) :
    ¬ (handleFetch st speaker env).outcome = ChunkOutcome.uncaught msg := by
  unfold handleFetch
  rcases env.fetch with t | ⟨status, text, bytes⟩
  · simp
  · dsimp only
    split
    · split
      · simp
      · split <;> simp
    · split <;> simp

theorem handleFetch_success (st : WorkerState) (speaker : String) (env : ChunkEnv)
    (status : Nat) (text : String) (bytes : Nat)
    (hf : env.fetch = FetchResult.resp status text bytes)
    (h1 : 200 ≤ status) (h2 : status ≤ 299) (hb : bytes ≠ 0) :
    (handleFetch st speaker env).outcome = ChunkOutcome.completed ∧
      (handleFetch st speaker env).st.quotaExhausted = none := by
  unfold handleFetch
  rw [hf]
  dsimp only
  have hok : (200 ≤ status && status ≤ 299) = true := by simp [h1, h2]
  rw [hok]
  have hb0 : (bytes == 0) = false := by simpa using hb
  simp [hb0]

/-! ### Lemmas about the frame-publishing loop -/

theorem core_ne_uncaught (st : WorkerState) (speaker : String) (q1 q2 : Bool)
    (env : ChunkEnv) (msg : String) :
    ¬ (sendS2SChunkCore st speaker q1 q2 env).outcome = ChunkOutcome.uncaught msg := by
  unfold sendS2SChunkCore
  rcases hc : st.roomConnected
  · simp [skipResult]
  · rcases hr : mapGet st.routes speaker with _ | route
    · simp [skipResult]
    · rcases hs : route.sourceOk
      · simp [skipResult, hs]
      · rcases hv : route.voiceId == ""
        · rcases hqb : st.quotaExhausted with _ | T
          · rcases q1 <;> rcases q2 <;>
              simp [skipResult, hs, hv, handleFetch_ne_uncaught]
          · by_cases hT : env.now - T < 60000 <;> rcases q1 <;> rcases q2 <;>
              simp [skipResult, hs, hv, hT, handleFetch_ne_uncaught]
        · simp [skipResult, hs, hv]

theorem publishLoop_succ_ok (voices : List (String × VoiceInfo)) (speaker : String)
    (now : Int) (renv : RecreateEnv) (m : Nat) (rest : List CaptureOutcome)
    (ls : LoopSt) (r : Route)
    (hr : mapGet ls.routes speaker = some r) (hs : r.sourceOk = true) :
    publishLoop voices speaker now renv (m + 1) (CaptureOutcome.ok :: rest) ls
      = publishLoop voices speaker now renv m rest { ls with frames := ls.frames + 1 } := by
  conv_lhs => rw [publishLoop]
  rw [hr]
  simp [hs]

theorem publishLoop_ok_steps (voices : List (String × VoiceInfo)) (speaker : String)
    (now : Int) (renv : RecreateEnv) (r : Route) (hs : r.sourceOk = true) :
    ∀ (j m : Nat) (caps : List CaptureOutcome) (ls : LoopSt),
      mapGet ls.routes speaker = some r → j ≤ m →
      publishLoop voices speaker now renv m (List.replicate j CaptureOutcome.ok ++ caps) ls
        = publishLoop voices speaker now renv (m - j) caps
            { ls with frames := ls.frames + j } := by
  intro j
  induction j with
  | zero =>
    intro m caps ls hr hj
    simp
  | succ j ih =>
    intro m caps ls hr hj
    rcases m with _ | m
    · omega
    · rw [List.replicate_succ, List.cons_append,
        publishLoop_succ_ok voices speaker now renv m _ ls r hr hs,
        ih m caps { ls with frames := ls.frames + 1 } hr (by omega)]
      have h1 : m + 1 - (j + 1) = m - j := by omega
      have h2 : ls.frames + 1 + j = ls.frames + (j + 1) := by omega
      rw [h1, h2]

theorem publishLoop_err_fresh (voices : List (String × VoiceInfo)) (speaker : String)
    (now : Int) (renv : RecreateEnv) (m : Nat) (msg : String)
    (rest : List CaptureOutcome) (ls : LoopSt) (r : Route)
    (hr : mapGet ls.routes speaker = some r) (hs : r.sourceOk = true)
    (hmsg : strIncl msg "InvalidState" = true)
    (hrec : recentlyActive ls.recentlyRecreated speaker now = false) :
    publishLoop voices speaker now renv (m + 1) (CaptureOutcome.err msg :: rest) ls
      = { routes := (recreateRouteCore voices ls.routes speaker renv).1,
          recentlyRecreated := (speaker, now + 5000) :: ls.recentlyRecreated,
          activeS2S := ls.activeS2S.erase speaker,
          frames := ls.frames,
          recs := ls.recs + 1,
          effects := ls.effects ++ (recreateRouteCore voices ls.routes speaker renv).2 } := by
  conv_lhs => rw [publishLoop]
  rw [hr]
  simp [hs, hmsg, hrec]

theorem publishLoop_err_recent (voices : List (String × VoiceInfo)) (speaker : String)
    (now : Int) (renv : RecreateEnv) (m : Nat) (msg : String)
    (rest : List CaptureOutcome) (ls : LoopSt) (r : Route)
    (hr : mapGet ls.routes speaker = some r) (hs : r.sourceOk = true)
    (hmsg : strIncl msg "InvalidState" = true)
    (hrec : recentlyActive ls.recentlyRecreated speaker now = true) :
    publishLoop voices speaker now renv (m + 1) (CaptureOutcome.err msg :: rest) ls
      = { ls with activeS2S := ls.activeS2S.erase speaker } := by
  conv_lhs => rw [publishLoop]
  rw [hr]
  simp [hs, hmsg, hrec]


/-! ### Lemmas about route recreation and the stream loop -/

theorem recreateRouteCore_success (voices : List (String × VoiceInfo))
    (routes : List (String × Route)) (id : String) (env : RecreateEnv)
    (vi : VoiceInfo) (old : Route)
    (hvi : mapGet voices id = some vi) (hold : mapGet routes id = some old)
    (hp : env.publishOk = true) :
    recreateRouteCore voices routes id env
      = (mapSet (mapDelete routes id) id
          { key := "from-" ++ id, voiceId := vi.voiceId, sourceOk := true,
            tag := env.freshTag },
         [RouteEffect.unpublish old.tag env.unpublishOk,
          RouteEffect.publish env.freshTag]) := by
  unfold recreateRouteCore
  rw [hvi, hold]
  simp [hp]

theorem recreateRouteCore_publishFail (voices : List (String × VoiceInfo))
    (routes : List (String × Route)) (id : String) (env : RecreateEnv)
    (vi : VoiceInfo) (old : Route)
    (hvi : mapGet voices id = some vi) (hold : mapGet routes id = some old)
    (hp : env.publishOk = false) :
    recreateRouteCore voices routes id env
      = (mapDelete routes id, [RouteEffect.unpublish old.tag env.unpublishOk]) := by
  unfold recreateRouteCore
  rw [hvi, hold]
  simp [hp]

theorem recreateRouteCore_nodup (voices : List (String × VoiceInfo))
    (routes : List (String × Route)) (id : String) (env : RecreateEnv)
    (h : nodupKeys routes) : nodupKeys (recreateRouteCore voices routes id env).1 := by
  unfold recreateRouteCore
  rcases hvi : mapGet voices id with _ | vi
  · exact h
  · rcases hold : mapGet routes id with _ | old
    · rcases hp : env.publishOk
      · simpa [hp] using h
      · simpa [hp] using nodupKeys_mapSet routes id _ h
    · rcases hp : env.publishOk
      · simpa [hp] using nodupKeys_mapDelete routes id h
      · simpa [hp] using nodupKeys_mapSet (mapDelete routes id) id _ (nodupKeys_mapDelete routes id h)

theorem recreateRouteCore_unpub_indep (voices : List (String × VoiceInfo))
    (routes : List (String × Route)) (id : String) (b1 b2 p : Bool) (n : Nat) :
    (recreateRouteCore voices routes id { unpublishOk := b1, publishOk := p, freshTag := n }).1
      = (recreateRouteCore voices routes id
          { unpublishOk := b2, publishOk := p, freshTag := n }).1 := by
  unfold recreateRouteCore
  rcases hvi : mapGet voices id with _ | vi
  · rfl
  · rcases hold : mapGet routes id with _ | old <;> rcases hp : p <;> simp

theorem streamStep_no_abort (spc : Nat) (speaker : String) (ss : StreamState)
    (fr : InFrame) (h : ss.aborted = false) :
    (streamStep spc speaker ss fr).aborted = false ∧
      (streamStep spc speaker ss fr).framesSeen = ss.framesSeen + 1 := by
  unfold streamStep
  rw [h]
  simp only [Bool.false_eq_true, if_false]
  by_cases h0 : fr.samples.length = 0
  · simp [h0]
  · rw [if_neg h0]
    by_cases hg : ss.total + fr.samples.length ≥ spc ∧ fr.t - ss.lastChunkTime ≥ 200
    · rw [if_pos hg]
      obtain ⟨q1, q2, heq⟩ := sendS2SChunk_eq_core ss.ws speaker (ss.buffers ++ [fr.samples]).flatten fr.env
      rw [heq]
      split
      · rename_i msg hm
        exact absurd hm (core_ne_uncaught ss.ws speaker q1 q2 fr.env msg)
      · exact ⟨rfl, rfl⟩
    · rw [if_neg hg]
      exact ⟨h ▸ rfl, rfl⟩

theorem streamFold_no_abort (spc : Nat) (speaker : String) :
    ∀ (frames : List InFrame) (ss : StreamState), ss.aborted = false →
      (frames.foldl (streamStep spc speaker) ss).aborted = false ∧
        (frames.foldl (streamStep spc speaker) ss).framesSeen
          = ss.framesSeen + frames.length := by
  intro frames
  induction frames with
  | nil => intro ss h; simpa using h
  | cons fr frames ih =>
    intro ss h
    rw [List.foldl_cons]
    obtain ⟨h1, h2⟩ := streamStep_no_abort spc speaker ss fr h
    obtain ⟨h3, h4⟩ := ih (streamStep spc speaker ss fr) h1
    refine ⟨h3, ?_⟩
    rw [h4, h2, List.length_cons]
    omega


/-! ### Claim theorems (first group) -/

theorem core_call_is_fetch (st : WorkerState) (speaker : String) (q1 q2 : Bool)
    (env : ChunkEnv)
    (hcall : (sendS2SChunkCore st speaker q1 q2 env).networkCall = true) :
    sendS2SChunkCore st speaker q1 q2 env = handleFetch st speaker env := by
  unfold sendS2SChunkCore at hcall ⊢
  rcases hc : st.roomConnected
  · simp [skipResult, hc] at hcall
  · rcases hr : mapGet st.routes speaker with _ | route
    · simp [skipResult, hc, hr] at hcall
    · rcases hs : route.sourceOk
      · simp [skipResult, hc, hr, hs] at hcall
      · rcases hv : route.voiceId == ""
        · rcases hqb : st.quotaExhausted with _ | T
          · rcases q1
            · rcases q2
              · simp [hs, hv]
              · simp [skipResult, hc, hr, hqb, hs, hv] at hcall
            · simp [skipResult, hc, hr, hqb, hs, hv] at hcall
          · by_cases hT : env.now - T < 60000
            · simp [skipResult, hc, hr, hqb, hs, hv, hT] at hcall
            · rcases q1
              · rcases q2
                · simp [hs, hv, hT]
                · simp [skipResult, hc, hr, hqb, hs, hv, hT] at hcall
              · simp [skipResult, hc, hr, hqb, hs, hv, hT] at hcall
        · simp [skipResult, hc, hr, hs, hv] at hcall

/-- C9: the WAV buffer is byte-correct per the standard RIFF layout. -/
theorem c9_wav_byte_correct (int16 : List Int) (sampleRate : Nat)
    (hsamples : ∀ x ∈ int16, -32768 ≤ x ∧ x ≤ 32767)
    (hlen : 36 + 2 * int16.length < 2 ^ 32)
    (hrate : sampleRate * 2 < 2 ^ 32) :
    pcmToWavBuffer int16 sampleRate = wavRiffLayout int16 sampleRate ∧
      (pcmToWavBuffer int16 sampleRate).length = 44 + 2 * int16.length ∧
      ∀ b ∈ pcmToWavBuffer int16 sampleRate, b < 256 := by
  have e1 : int16.length * 2 = 2 * int16.length := Nat.mul_comm _ _
  refine ⟨?_, ?_, ?_⟩
  · simp only [pcmToWavBuffer, wavRiffLayout]
    norm_num [e1]
  · simp only [pcmToWavBuffer, List.length_append, u16le, u32le,
      List.length_cons, List.length_nil, flatten_int16le_length]
  · intro b hb
    simp only [pcmToWavBuffer, List.mem_append] at hb
    rcases hb with ((((((((((((h | h) | h) | h) | h) | h) | h) | h) | h) | h) | h) | h) | h) | h
    · exact (by decide : ∀ y ∈ [(82 : Nat), 73, 70, 70], y < 256) b h
    · exact mem_u32le_lt _ _ h
    · exact (by decide : ∀ y ∈ [(87 : Nat), 65, 86, 69], y < 256) b h
    · exact (by decide : ∀ y ∈ [(102 : Nat), 109, 116, 32], y < 256) b h
    · exact mem_u32le_lt _ _ h
    · exact mem_u16le_lt _ _ h
    · exact mem_u16le_lt _ _ h
    · exact mem_u32le_lt _ _ h
    · exact mem_u32le_lt _ _ h
    · exact mem_u16le_lt _ _ h
    · exact mem_u16le_lt _ _ h
    · exact (by decide : ∀ y ∈ [(100 : Nat), 97, 116, 97], y < 256) b h
    · exact mem_u32le_lt _ _ h
    · rcases List.mem_flatten.mp h with ⟨l2, hl2, hbl⟩
      rcases List.mem_map.mp hl2 with ⟨x, hx, rfl⟩
      exact mem_int16le_lt x b hbl

theorem c9_wav_byte_correct_witness :
    (∀ x ∈ ([0, 1, -1] : List Int), -32768 ≤ x ∧ x ≤ 32767) ∧
      pcmToWavBuffer [0, 1, -1] 48000 = wavRiffLayout [0, 1, -1] 48000 ∧
      (pcmToWavBuffer [0, 1, -1] 48000).length = 44 + 2 * 3 := by
  have h := c9_wav_byte_correct [0, 1, -1] 48000 (by decide) (by norm_num) (by norm_num)
  exact ⟨by decide, h.1, h.2.1⟩

/-- C3: chunks fire only under the size and interval guards, and drain in
arrival order with no loss. -/
theorem c3_accumulator_order (spc : Nat) (fs : List (Int × List Int)) :
    ((accRun spc fs).sent.flatten ++ (accRun spc fs).buffers.flatten
        = (fs.map Prod.snd).flatten) ∧
    ((accRun spc fs).total = ((accRun spc fs).buffers.map List.length).sum) ∧
    (∀ (st : AccState) (fr : Int × List Int), (accStep spc st fr).sent ≠ st.sent →
      st.total + fr.2.length ≥ spc ∧ fr.1 - st.lastChunkTime ≥ 200 ∧
      (accStep spc st fr).sent = st.sent ++ [(st.buffers ++ [fr.2]).flatten]) := by
  refine ⟨?_, ?_, fun st fr h => accStep_guard spc st fr h⟩
  · simpa [accRun, accInit] using accFold_preserve spc fs accInit
  · exact accFold_total spc fs accInit (by simp [accInit])

theorem c3_accumulator_order_witness :
    ((accStep 2 (accRun 2 [(0, [5])]) (1000, [7])).sent ≠ (accRun 2 [(0, [5])]).sent) ∧
      ((accRun 2 [(0, [5])]).total + 1 ≥ 2 ∧
        (1000 : Int) - (accRun 2 [(0, [5])]).lastChunkTime ≥ 200 ∧
        (accStep 2 (accRun 2 [(0, [5])]) (1000, [7])).sent
          = (accRun 2 [(0, [5])]).sent ++ [((accRun 2 [(0, [5])]).buffers ++ [[7]]).flatten]) :=
  ⟨by decide, (c3_accumulator_order 2 [(0, [5])]).2.2 (accRun 2 [(0, [5])]) (1000, [7]) (by decide)⟩

/-- C4 counterexample: a tail of exactly half a chunk (24 of 48 samples) is
discarded by the code, while the claim requires it to be flushed. -/
theorem c4_exactly_half_discarded :
    2 * (accRun 48 [(1000, List.replicate 24 (0 : Int))]).total = 48 ∧
      streamFlush 48 (accRun 48 [(1000, List.replicate 24 (0 : Int))]) = none := by
  decide

/-- C4 amended: the final partial chunk is flushed iff the remainder holds
strictly more than half a chunk's samples. -/
theorem c4_flush_strict_half (spc : Nat) (fs : List (Int × List Int)) :
    (2 * (accRun spc fs).total > spc →
      streamFlush spc (accRun spc fs) = some ((accRun spc fs).buffers.flatten) ∧
        (accRun spc fs).sent.flatten ++ (accRun spc fs).buffers.flatten
          = (fs.map Prod.snd).flatten) ∧
    (2 * (accRun spc fs).total ≤ spc → streamFlush spc (accRun spc fs) = none) := by
  constructor
  · intro h
    refine ⟨by simp [streamFlush, h], ?_⟩
    simpa [accRun, accInit] using accFold_preserve spc fs accInit
  · intro h
    simp only [streamFlush]
    rw [if_neg (by omega)]

theorem c4_flush_strict_half_witness :
    (2 * (accRun 48 [(1000, List.replicate 30 (0 : Int))]).total > 48 ∧
      streamFlush 48 (accRun 48 [(1000, List.replicate 30 (0 : Int))])
        = some ((accRun 48 [(1000, List.replicate 30 (0 : Int))]).buffers.flatten)) ∧
    (2 * (accRun 48 [(1000, List.replicate 10 (0 : Int))]).total ≤ 48 ∧
      streamFlush 48 (accRun 48 [(1000, List.replicate 10 (0 : Int))]) = none) :=
  ⟨⟨by decide, ((c4_flush_strict_half 48 [(1000, List.replicate 30 (0 : Int))]).1 (by decide)).1⟩,
   ⟨by decide, (c4_flush_strict_half 48 [(1000, List.replicate 10 (0 : Int))]).2 (by decide)⟩⟩

/-- C2: a chunk whose RMS level is below -55 dBFS never issues the HTTP
request. -/
theorem c2_silence_no_request (st : WorkerState) (speaker : String) (int16 : List Int)
    (env : ChunkEnv) (h : rmsDbFS int16 < -55) :
    (sendS2SChunk st speaker int16 env).networkCall = false ∧
      (sendS2SChunk st speaker int16 env).st = st := by
  rw [sendS2SChunk_quiet st speaker int16 env h]
  exact core_quiet1 st speaker true env

theorem c2_silence_no_request_witness :
    rmsDbFS [] < -55 ∧ (sendS2SChunk stA "A" [] envEarly).networkCall = false :=
  ⟨rmsDbFS_nil_silent,
   (c2_silence_no_request stA "A" [] envEarly rmsDbFS_nil_silent).1⟩

/-- C10: `sendS2SChunk` never propagates an exception, so the stream loop's
InvalidState break is unreachable and every inbound frame is consumed. -/
theorem c10_chunk_never_throws :
    (∀ (st : WorkerState) (speaker : String) (int16 : List Int) (env : ChunkEnv)
        (msg : String),
      ¬ (sendS2SChunk st speaker int16 env).outcome = ChunkOutcome.uncaught msg) ∧
    (∀ (spc : Nat) (speaker : String) (ws : WorkerState) (frames : List InFrame),
      (streamRun spc speaker ws frames).aborted = false ∧
        (streamRun spc speaker ws frames).framesSeen = frames.length) := by
  constructor
  · intro st speaker int16 env msg
    obtain ⟨q1, q2, heq⟩ := sendS2SChunk_eq_core st speaker int16 env
    rw [heq]
    exact core_ne_uncaught st speaker q1 q2 env msg
  · intro spc speaker ws frames
    have h := streamFold_no_abort spc speaker frames (streamInit ws) rfl
    constructor
    · exact h.1
    · simpa [streamRun, streamInit] using h.2

theorem c10_chunk_never_throws_witness :
    (¬ (sendS2SChunk stA "A" [-32768] envInvalid).outcome = ChunkOutcome.uncaught "x") ∧
      (streamRun 48000 "A" stA []).aborted = false :=
  ⟨c10_chunk_never_throws.1 stA "A" [-32768] envInvalid "x",
   (c10_chunk_never_throws.2 48000 "A" stA []).1⟩


/-! ### Claim theorems (second group) -/

/-- C1: quota cooldown. -/
theorem c1_quota_cooldown :
    (∀ (st : WorkerState) (speaker : String) (int16 : List Int) (env : ChunkEnv) (T : Int),
      st.quotaExhausted = some T → env.now - T < 60000 →
      (sendS2SChunk st speaker int16 env).networkCall = false ∧
        (sendS2SChunk st speaker int16 env).st = st) ∧
    (∀ (st : WorkerState) (speaker : String) (int16 : List Int) (env : ChunkEnv)
        (T : Int) (route : Route),
      st.quotaExhausted = some T → env.now - T ≥ 60000 →
      st.roomConnected = true → mapGet st.routes speaker = some route →
      route.sourceOk = true → (route.voiceId == "") = false →
      ¬ rmsDbFS int16 < -55 →
      (sendS2SChunk st speaker int16 env).networkCall = true) ∧
    (∀ (st : WorkerState) (speaker : String) (int16 : List Int) (env : ChunkEnv)
        (status : Nat) (text : String) (bytes : Nat),
      env.fetch = FetchResult.resp status text bytes → 200 ≤ status → status ≤ 299 →
      bytes ≠ 0 → (sendS2SChunk st speaker int16 env).networkCall = true →
      (sendS2SChunk st speaker int16 env).st.quotaExhausted = none) := by
  refine ⟨?_, ?_, ?_⟩
  · intro st speaker int16 env T hq ht
    obtain ⟨q1, q2, heq⟩ := sendS2SChunk_eq_core st speaker int16 env
    rw [heq]
    exact core_quota_blocked st speaker q1 q2 env T hq ht
  · intro st speaker int16 env T route hq ht hc hr hs hv hrms
    rw [sendS2SChunk_loud st speaker int16 env hrms]
    rw [core_guards_pass st speaker env route hc hr hs hv
      (by intro T2 hT2; rw [hq] at hT2; cases hT2; exact ht)]
    exact handleFetch_networkCall st speaker env
  · intro st speaker int16 env status text bytes hf h1 h2 hb hcall
    obtain ⟨q1, q2, heq⟩ := sendS2SChunk_eq_core st speaker int16 env
    rw [heq] at hcall ⊢
    rw [core_call_is_fetch st speaker q1 q2 env hcall]
    exact (handleFetch_success st speaker env status text bytes hf h1 h2 hb).2

theorem c1_quota_cooldown_witness :
    ((sendS2SChunk stQuota "A" [-32768] envEarly).networkCall = false ∧
      (sendS2SChunk stQuota "A" [-32768] envEarly).st = stQuota) ∧
    (sendS2SChunk stQuota "A" [-32768] envLate).networkCall = true ∧
    (sendS2SChunk stA "A" [-32768] envLate).st.quotaExhausted = none := by
  refine ⟨?_, ?_, ?_⟩
  · exact c1_quota_cooldown.1 stQuota "A" [-32768] envEarly 0 rfl (by decide)
  · exact c1_quota_cooldown.2.1 stQuota "A" [-32768] envLate 0 routeA rfl (by decide)
      rfl (by decide) rfl (by decide) rmsDbFS_fullscale_loud
  · refine c1_quota_cooldown.2.2 stA "A" [-32768] envLate 200 "" 1920 rfl (by decide)
      (by decide) (by decide) ?_
    rw [sendS2SChunk_loud stA "A" [-32768] envLate rmsDbFS_fullscale_loud]
    decide

/-- C5 counterexample: `recreateRoute` with a failing publish leaves no route. -/
theorem c5_recreate_publish_failure :
    mapGet stA.routes "A" = some routeA ∧
      mapGet ((recreateRouteForParticipant stA "A"
        { unpublishOk := true, publishOk := false, freshTag := 7 }).1.routes) "A" = none := by
  decide

/-- C5 amended: route uniqueness and recreation behaviour. -/
theorem c5_route_registry :
    (∀ (st : WorkerState) (id : String) (env : RecreateEnv),
      nodupKeys st.routes → nodupKeys (recreateRouteForParticipant st id env).1.routes) ∧
    (∀ (st : WorkerState) (id : String) (publishOk : Bool) (tag : Nat),
      nodupKeys st.routes → nodupKeys (setupRouteForParticipant st id publishOk tag).1.routes) ∧
    (∀ (st : WorkerState) (id : String) (env : RecreateEnv) (vi : VoiceInfo) (old : Route),
      mapGet st.participantVoices id = some vi → mapGet st.routes id = some old →
      env.publishOk = true →
      mapGet (recreateRouteForParticipant st id env).1.routes id
          = some { key := "from-" ++ id, voiceId := vi.voiceId, sourceOk := true,
                   tag := env.freshTag } ∧
        (((recreateRouteForParticipant st id env).1.routes.filter
            (fun p => p.1 == id)).length = 1) ∧
        (recreateRouteForParticipant st id env).2
          = [RouteEffect.unpublish old.tag env.unpublishOk,
             RouteEffect.publish env.freshTag] ∧
        (recreateRouteForParticipant st id env).1.participantVoices
          = st.participantVoices) ∧
    (∀ (st : WorkerState) (id : String) (b1 b2 p : Bool) (n : Nat),
      (recreateRouteForParticipant st id
          { unpublishOk := b1, publishOk := p, freshTag := n }).1
        = (recreateRouteForParticipant st id
          { unpublishOk := b2, publishOk := p, freshTag := n }).1) ∧
    (∀ (st : WorkerState) (id : String) (env : RecreateEnv) (vi : VoiceInfo) (old : Route),
      mapGet st.participantVoices id = some vi → mapGet st.routes id = some old →
      env.publishOk = false →
      mapGet (recreateRouteForParticipant st id env).1.routes id = none) := by
  refine ⟨?_, ?_, ?_, ?_, ?_⟩
  · intro st id env h
    exact recreateRouteCore_nodup st.participantVoices st.routes id env h
  · intro st id publishOk tag h
    unfold setupRouteForParticipant
    rcases hvi : mapGet st.participantVoices id with _ | vi
    · exact h
    · rcases hp : publishOk
      · exact h
      · exact nodupKeys_mapSet st.routes id _ h
  · intro st id env vi old hvi hold hp
    have hcore := recreateRouteCore_success st.participantVoices st.routes id env vi old hvi hold hp
    refine ⟨?_, ?_, ?_, rfl⟩
    · show mapGet (recreateRouteCore st.participantVoices st.routes id env).1 id = _
      rw [hcore]
      exact mapGet_mapSet_self _ _ _
    · show ((recreateRouteCore st.participantVoices st.routes id env).1.filter _).length = 1
      rw [hcore]
      exact mapSet_filter_key_length _ _ _
    · show (recreateRouteCore st.participantVoices st.routes id env).2 = _
      rw [hcore]
  · intro st id b1 b2 p n
    have h := recreateRouteCore_unpub_indep st.participantVoices st.routes id b1 b2 p n
    simp only [recreateRouteForParticipant]
    rw [h]
  · intro st id env vi old hvi hold hp
    have hcore := recreateRouteCore_publishFail st.participantVoices st.routes id env vi old hvi hold hp
    show mapGet (recreateRouteCore st.participantVoices st.routes id env).1 id = none
    rw [hcore]
    exact mapGet_mapDelete_self _ _

theorem c5_route_registry_witness :
    (mapGet stA.participantVoices "A" = some viA ∧ mapGet stA.routes "A" = some routeA) ∧
      mapGet ((recreateRouteForParticipant stA "A"
          { unpublishOk := true, publishOk := true, freshTag := 9 }).1.routes) "A"
        = some { key := "from-" ++ "A", voiceId := viA.voiceId, sourceOk := true, tag := 9 } ∧
      (recreateRouteForParticipant stA "A"
          { unpublishOk := true, publishOk := true, freshTag := 9 }).2
        = [RouteEffect.unpublish routeA.tag true, RouteEffect.publish 9] :=
  ⟨⟨by decide, by decide⟩,
   (c5_route_registry.2.2.1 stA "A" { unpublishOk := true, publishOk := true, freshTag := 9 }
      viA routeA (by decide) (by decide) rfl).1,
   (c5_route_registry.2.2.1 stA "A" { unpublishOk := true, publishOk := true, freshTag := 9 }
      viA routeA (by decide) (by decide) rfl).2.2.1⟩

/-- C6: reachable trace with two live relay loops for the same identity. -/
theorem c6_duplicate_loop_trace :
    ((startAudioStream stA true "A").loops = ["A"]) ∧
    ((sendS2SChunk (startAudioStream stA true "A") "A" [-32768] envInvalid).st.activeS2S
        = []) ∧
    ((sendS2SChunk (startAudioStream stA true "A") "A" [-32768] envInvalid).st.loops
        = ["A"]) ∧
    ((startAudioStream
        (sendS2SChunk (startAudioStream stA true "A") "A" [-32768] envInvalid).st
        true "A").loops = ["A", "A"]) := by
  rw [sendS2SChunk_loud (startAudioStream stA true "A") "A" [-32768] envInvalid
    rmsDbFS_fullscale_loud]
  refine ⟨by decide, by decide, by decide, by decide⟩


/-! ### Claim theorems (third group) -/

theorem handleFetch_completed_eq (st : WorkerState) (speaker : String) (env : ChunkEnv)
    (status : Nat) (text : String) (bytes : Nat)
    (hf : env.fetch = FetchResult.resp status text bytes)
    (h1 : 200 ≤ status) (h2 : status ≤ 299) (hb : bytes ≠ 0) :
    handleFetch st speaker env =
      (let ls := publishLoop st.participantVoices speaker env.now env.renv
          (bytes / 2 / 960) env.captures
          { routes := st.routes, recentlyRecreated := st.recentlyRecreated,
            activeS2S := st.activeS2S, frames := 0, recs := 0, effects := [] }
       let st1 : WorkerState :=
         { st with
           routes := ls.routes, recentlyRecreated := ls.recentlyRecreated,
           activeS2S := ls.activeS2S, quotaExhausted := none,
           lastSuccessfulCall := env.now }
       { st := st1,
         networkCall := true, outcome := ChunkOutcome.completed,
         frames := ls.frames, recs := ls.recs, effects := ls.effects }) := by
  unfold handleFetch
  rw [hf]
  dsimp only
  have hok : (200 ≤ status && status ≤ 299) = true := by simp [h1, h2]
  rw [hok]
  have hb0 : (bytes == 0) = false := by simpa using hb
  simp [hb0]

/-- C8 amended: a 401 with a quota indicator in the body, or any 429, sets the
quota-exhausted state; any other non-2xx response is a generic service error
with the state unchanged and the chunk dropped. -/
theorem c8_non2xx_classification (st : WorkerState) (speaker : String) (int16 : List Int)
    (env : ChunkEnv) (route : Route) (status : Nat) (text : String) (bytes : Nat)
    (hc : st.roomConnected = true) (hr : mapGet st.routes speaker = some route)
    (hs : route.sourceOk = true) (hv : (route.voiceId == "") = false)
    (hq : st.quotaExhausted = none) (hrms : ¬ rmsDbFS int16 < -55)
    (hf : env.fetch = FetchResult.resp status text bytes)
    (hnok : ¬ (200 ≤ status ∧ status ≤ 299)) :
    ((status = 429 ∨ (status = 401 ∧
        (strIncl text "quota_exceeded" || strIncl text "quota") = true)) →
      (sendS2SChunk st speaker int16 env).st.quotaExhausted = some env.now ∧
        (sendS2SChunk st speaker int16 env).outcome = ChunkOutcome.quotaFail) ∧
    ((status ≠ 429 ∧ (status = 401 →
        (strIncl text "quota_exceeded" || strIncl text "quota") = false)) →
      (sendS2SChunk st speaker int16 env).outcome = ChunkOutcome.serviceError status text ∧
        (sendS2SChunk st speaker int16 env).st = st ∧
        (sendS2SChunk st speaker int16 env).frames = 0) := by
  rw [sendS2SChunk_loud st speaker int16 env hrms,
    core_guards_pass st speaker env route hc hr hs hv
      (by intro T hT; rw [hq] at hT; cases hT)]
  unfold handleFetch
  rw [hf]
  dsimp only
  have hok : (200 ≤ status && status ≤ 299) = false := by
    simp only [Bool.and_eq_false_iff, decide_eq_false_iff_not]
    omega
  rw [hok]
  constructor
  · rintro (rfl | ⟨rfl, hqt⟩)
    · rcases hq2 : (strIncl text "quota_exceeded" || strIncl text "quota")
      · simp [hq2]
      · simp [hq2]
    · simp [hqt]
  · rintro ⟨h429, h401⟩
    by_cases h401e : status = 401
    · subst h401e
      simp [h401 rfl]
    · have hb1 : (status == 401) = false := by simpa using h401e
      have hb2 : (status == 429) = false := by simpa using h429
      simp [hb1, hb2]

theorem c8_non2xx_classification_witness :
    ((sendS2SChunk stA "A" [-32768] env401).st.quotaExhausted = some 5000 ∧
      (sendS2SChunk stA "A" [-32768] env401).outcome = ChunkOutcome.quotaFail) ∧
    ((sendS2SChunk stA "A" [-32768] env500).outcome
        = ChunkOutcome.serviceError 500 "internal error" ∧
      (sendS2SChunk stA "A" [-32768] env500).st = stA ∧
      (sendS2SChunk stA "A" [-32768] env500).frames = 0) :=
  ⟨(c8_non2xx_classification stA "A" [-32768] env401 routeA 401
      "quota_exceeded: character limit" 0 rfl (by decide) rfl (by decide) rfl
      rmsDbFS_fullscale_loud rfl (by omega)).1 (Or.inr ⟨rfl, by decide⟩),
   (c8_non2xx_classification stA "A" [-32768] env500 routeA 500 "internal error" 0
      rfl (by decide) rfl (by decide) rfl rmsDbFS_fullscale_loud rfl (by omega)).2
      ⟨by decide, fun h => absurd h (by decide)⟩⟩

/-- C8 counterexample: a bare 429 without any quota indicator in the body sets
the quota-exhausted state, where the claim requires a generic service error
with the state unchanged. -/
theorem c8_plain_429_sets_quota :
    strIncl "Too Many Requests" "quota" = false ∧
      (sendS2SChunk stA "A" [-32768] env429).st.quotaExhausted = some 2000 ∧
      (sendS2SChunk stA "A" [-32768] env429).outcome = ChunkOutcome.quotaFail := by
  rw [sendS2SChunk_loud stA "A" [-32768] env429 rmsDbFS_fullscale_loud]
  refine ⟨by decide, by decide, by decide⟩


/-! ### Claim theorems (fourth group) -/

/-- C7: a channel-invalid capture failure triggers exactly one debounced route
recreation, abandons the rest of the chunk, and a second failure within the
5 s window triggers none. -/
theorem c7_channel_invalid_recovery (st : WorkerState) (speaker : String)
    (int16 int16b : List Int) (env env2 : ChunkEnv) (route : Route) (vi : VoiceInfo)
    (j : Nat) (msg msg2 : String) (rest rest2 : List CaptureOutcome)
    (status : Nat) (text : String) (bytes : Nat)
    (status2 : Nat) (text2 : String) (bytes2 : Nat)
    (hc : st.roomConnected = true)
    (hr : mapGet st.routes speaker = some route)
    (hs : route.sourceOk = true)
    (hv : (route.voiceId == "") = false)
    (hq : st.quotaExhausted = none)
    (hrms : ¬ rmsDbFS int16 < -55)
    (hf : env.fetch = FetchResult.resp status text bytes)
    (h1 : 200 ≤ status) (h2 : status ≤ 299)
    (hj : j < bytes / 2 / 960)
    (hcaps : env.captures
      = List.replicate j CaptureOutcome.ok ++ CaptureOutcome.err msg :: rest)
    (hmsg : strIncl msg "InvalidState" = true)
    (hfresh : recentlyActive st.recentlyRecreated speaker env.now = false)
    (hvi : mapGet st.participantVoices speaker = some vi)
    (hvid : (vi.voiceId == "") = false)
    (hpub : env.renv.publishOk = true)
    (hnow2 : env2.now < env.now + 5000)
    (hrms2 : ¬ rmsDbFS int16b < -55)
    (hf2 : env2.fetch = FetchResult.resp status2 text2 bytes2)
    (h1b : 200 ≤ status2) (h2b : status2 ≤ 299)
    (hfr2 : 0 < bytes2 / 2 / 960)
    (hcaps2 : env2.captures = CaptureOutcome.err msg2 :: rest2)
    (hmsg2 : strIncl msg2 "InvalidState" = true) :
    (sendS2SChunk st speaker int16 env).recs = 1 ∧
    (sendS2SChunk st speaker int16 env).frames = j ∧
    (∀ t : Int, t < env.now + 5000 →
      recentlyActive (sendS2SChunk st speaker int16 env).st.recentlyRecreated speaker t
        = true) ∧
    (∀ t : Int, env.now + 5000 ≤ t →
      recentlyActive (sendS2SChunk st speaker int16 env).st.recentlyRecreated speaker t
        = false) ∧
    (sendS2SChunk (sendS2SChunk st speaker int16 env).st speaker int16b env2).recs = 0 := by
  have hbne : bytes ≠ 0 := by
    intro hb0
    rw [hb0] at hj
    simp at hj
  -- the first call reaches the frame loop
  have heq1 : sendS2SChunk st speaker int16 env = handleFetch st speaker env := by
    rw [sendS2SChunk_loud st speaker int16 env hrms,
      core_guards_pass st speaker env route hc hr hs hv
        (by intro T hT; rw [hq] at hT; cases hT)]
  -- evaluate the frame-publishing loop of the first call
  have hm : ∃ k, bytes / 2 / 960 - j = k + 1 := ⟨bytes / 2 / 960 - j - 1, by omega⟩
  obtain ⟨k, hk⟩ := hm
  have hloop :
      publishLoop st.participantVoices speaker env.now env.renv (bytes / 2 / 960)
        env.captures
        { routes := st.routes, recentlyRecreated := st.recentlyRecreated,
          activeS2S := st.activeS2S, frames := 0, recs := 0, effects := [] }
      = { routes := (recreateRouteCore st.participantVoices st.routes speaker env.renv).1,
          recentlyRecreated := (speaker, env.now + 5000) :: st.recentlyRecreated,
          activeS2S := st.activeS2S.erase speaker,
          frames := j,
          recs := 1,
          effects := [] ++ (recreateRouteCore st.participantVoices st.routes speaker env.renv).2 } := by
    rw [hcaps]
    rw [publishLoop_ok_steps st.participantVoices speaker env.now env.renv route hs j
      (bytes / 2 / 960) (CaptureOutcome.err msg :: rest)
      { routes := st.routes, recentlyRecreated := st.recentlyRecreated,
        activeS2S := st.activeS2S, frames := 0, recs := 0, effects := [] }
      hr (by omega)]
    rw [hk]
    rw [publishLoop_err_fresh st.participantVoices speaker env.now env.renv k msg rest
      { routes := st.routes, recentlyRecreated := st.recentlyRecreated,
        activeS2S := st.activeS2S, frames := 0 + j, recs := 0, effects := [] }
      route hr hs hmsg hfresh]
    simp
  have hr1 : sendS2SChunk st speaker int16 env =
      { st := { st with
          routes := (recreateRouteCore st.participantVoices st.routes speaker env.renv).1,
          recentlyRecreated := (speaker, env.now + 5000) :: st.recentlyRecreated,
          activeS2S := st.activeS2S.erase speaker,
          quotaExhausted := none,
          lastSuccessfulCall := env.now },
        networkCall := true, outcome := ChunkOutcome.completed,
        frames := j, recs := 1,
        effects := [] ++ (recreateRouteCore st.participantVoices st.routes speaker env.renv).2 } := by
    rw [heq1, handleFetch_completed_eq st speaker env status text bytes hf h1 h2 hbne]
    dsimp only
    rw [hloop]
  refine ⟨by rw [hr1], by rw [hr1], ?_, ?_, ?_⟩
  · intro t ht
    rw [hr1]
    exact recentlyActive_cons_lt _ _ _ _ ht
  · intro t ht
    rw [hr1]
    have hm2 := recentlyActive_mono_false st.recentlyRecreated speaker env.now t hfresh
      (by omega)
    simp only [recentlyActive, List.any_cons, Bool.or_eq_false_iff] at hm2 ⊢
    constructor
    · simp only [Bool.and_eq_false_iff, decide_eq_false_iff_not]
      right
      omega
    · exact hm2
  · -- the second call within the debounce window performs no recreation
    rw [hr1]
    have hbne2 : bytes2 ≠ 0 := by
      intro hb0
      rw [hb0] at hfr2
      simp at hfr2
    have hcore2 := recreateRouteCore_success st.participantVoices st.routes speaker env.renv
      vi route hvi hr hpub
    set st1 : WorkerState :=
      { st with
        routes := (recreateRouteCore st.participantVoices st.routes speaker env.renv).1,
        recentlyRecreated := (speaker, env.now + 5000) :: st.recentlyRecreated,
        activeS2S := st.activeS2S.erase speaker,
        quotaExhausted := none,
        lastSuccessfulCall := env.now } with hst1
    have hroute2 : mapGet st1.routes speaker
        = some { key := "from-" ++ speaker, voiceId := vi.voiceId, sourceOk := true,
                 tag := env.renv.freshTag } := by
      rw [hst1]
      show mapGet (recreateRouteCore st.participantVoices st.routes speaker env.renv).1
        speaker = _
      rw [hcore2]
      exact mapGet_mapSet_self _ _ _
    have heq2 : sendS2SChunk st1 speaker int16b env2 = handleFetch st1 speaker env2 := by
      rw [sendS2SChunk_loud st1 speaker int16b env2 hrms2,
        core_guards_pass st1 speaker env2 _ (by rw [hst1]; exact hc) hroute2 rfl hvid
          (by intro T hT; rw [hst1] at hT; cases hT)]
    rw [heq2, handleFetch_completed_eq st1 speaker env2 status2 text2 bytes2 hf2 h1b h2b hbne2]
    dsimp only
    have hm2 : ∃ k2, bytes2 / 2 / 960 = k2 + 1 := ⟨bytes2 / 2 / 960 - 1, by omega⟩
    obtain ⟨k2, hk2⟩ := hm2
    rw [hcaps2, hk2]
    have hrecent : recentlyActive st1.recentlyRecreated speaker env2.now = true := by
      rw [hst1]
      exact recentlyActive_cons_lt _ _ _ _ hnow2
    rw [publishLoop_err_recent st1.participantVoices speaker env2.now env2.renv k2 msg2 rest2
      { routes := st1.routes, recentlyRecreated := st1.recentlyRecreated,
        activeS2S := st1.activeS2S, frames := 0, recs := 0, effects := [] }
      _ hroute2 rfl hmsg2 hrecent]

theorem c7_channel_invalid_recovery_witness :
    (sendS2SChunk stA "A" [-32768] envInvalid).recs = 1 ∧
    (sendS2SChunk stA "A" [-32768] envInvalid).frames = 0 ∧
    recentlyActive (sendS2SChunk stA "A" [-32768] envInvalid).st.recentlyRecreated "A" 3000
      = true ∧
    recentlyActive (sendS2SChunk stA "A" [-32768] envInvalid).st.recentlyRecreated "A" 6000
      = false ∧
    (sendS2SChunk (sendS2SChunk stA "A" [-32768] envInvalid).st "A" [-32768]
        envInvalid2).recs = 0 := by
  have h := c7_channel_invalid_recovery stA "A" [-32768] [-32768] envInvalid envInvalid2
    routeA viA 0 "InvalidState - failed to capture frame" "InvalidState" [] []
    200 "" 1920 200 "" 1920
    rfl (by decide) rfl (by decide) rfl rmsDbFS_fullscale_loud rfl (by decide) (by decide)
    (by decide) rfl (by decide) (by decide) (by decide) (by decide) rfl (by decide)
    rmsDbFS_fullscale_loud rfl (by decide) (by decide) (by decide) rfl (by decide)
  exact ⟨h.1, h.2.1, h.2.2.1 3000 (by decide), h.2.2.2.1 6000 (by decide), h.2.2.2.2⟩


end VoiceRelay
